import Mathlib

/-!
# Verification of the task data-access layer (`src/app/_lib/queries.ts`)

A shallow embedding of the query module: the task entity, the predicate
combinators (`and`/`or` over optional SQL expressions), sort resolution with
its fallback, pagination, the transactional row+count fetch of `getTasks`,
and the four cached aggregate-count operations.  SQL expressions are embedded
semantically as boolean predicates on rows; the storage engine is a list of
rows plus failure flags for the fallible round-trips.
-/

namespace ShadcnTable

/-- Modelled from the spec: the status enumeration of a Task (the schema
module `src/db/schema.ts` is not included in the sources; the spec only says
"status (enumerated set)" and names the values `done`/`cancelled` in its
scenario, so we take the repository's usual four values). -/
inductive Status where
  | todo
  | inProgress
  | done
  | canceled
deriving DecidableEq, Repr

/-- Modelled from the spec: the priority enumeration of a Task. -/
inductive Priority where
  | low
  | medium
  | high
deriving DecidableEq, Repr

def statusStr : Status → String
  | .todo => "todo"
  | .inProgress => "in-progress"
  | .done => "done"
  | .canceled => "canceled"

def priorityStr : Priority → String
  | .low => "low"
  | .medium => "medium"
  | .high => "high"

/-- Modelled from the spec: the Task entity — "attributes include identifier,
title, status (enumerated set), priority (enumerated set), creation
timestamp".  Timestamps are epoch integers. -/
structure Task where
  id : Nat
  title : String
  status : Status
  priority : Priority
  createdAt : Int
deriving DecidableEq, Repr

/-- The sortable/filterable columns of the `tasks` table. -/
inductive TaskField where
  | id
  | title
  | status
  | priority
  | createdAt
deriving DecidableEq, Repr

/-- Modelled from the spec: the runtime property lookup `tasks[column]` on the
table object, returning the column when the name is a recognized field of
Task and nothing otherwise (the schema module is not under the sources). -/
def taskColumn? (c : String) : Option TaskField :=
  if c = "id" then some .id
  else if c = "title" then some .title
  else if c = "status" then some .status
  else if c = "priority" then some .priority
  else if c = "createdAt" then some .createdAt
  else none

/-! ## SQL where-expressions, embedded as predicates

A drizzle `SQL<unknown> | undefined` value is embedded as
`Option (Task → Bool)`: `none` is JavaScript `undefined` (no clause), and a
present expression is its row-level meaning. -/

/-- JavaScript `String.prototype.split` with a one-character separator, on
character lists: `"" → [""]`, `"a.b" → ["a", "b"]`, `".." → ["", "", ""]`. -/
def splitCharsOn (delim : Char) : List Char → List (List Char)
  | [] => [[]]
  | c :: tl =>
    let rest := splitCharsOn delim tl
    if c = delim then [] :: rest
    else (c :: rest.headD []) :: rest.tail

/-- JavaScript `s.split(delim)` for a one-character delimiter. -/
def jsSplit (delim : Char) (s : String) : List String :=
  (splitCharsOn delim s.toList).map (fun l => ⟨l⟩)

/-- Meaning of an optional where-clause: an absent clause matches every row. -/
def evalWhere : Option (Task → Bool) → Task → Bool
  | none, _ => true
  | some p, t => p t

/-- drizzle `and(...exprs)`: absent operands are dropped; with no present
operand the result is itself absent (no filter). -/
def andOf (es : List (Option (Task → Bool))) : Option (Task → Bool) :=
  if (es.filterMap id).isEmpty then none
  else some (fun t => (es.filterMap id).all (fun p => p t))

/-- drizzle `or(...exprs)`: absent operands are dropped; with no present
operand the result is itself absent (no filter). -/
def orOf (es : List (Option (Task → Bool))) : Option (Task → Bool) :=
  if (es.filterMap id).isEmpty then none
  else some (fun t => (es.filterMap id).any (fun p => p t))

/-- `queries.ts` lines 71–74: `!input.operator || input.operator === "and" ?
and(...) : or(...)`.  The falsy strings of JavaScript are the absent value and
the empty string. -/
def combineWhere (op : Option String) (es : List (Option (Task → Bool))) :
    Option (Task → Bool) :=
  if op = none ∨ op = some "" ∨ op = some "and" then andOf es else orOf es

/-- Substring test used by the text filter (SQL `%value%` pattern). -/
def containsSub (needle hay : List Char) : Bool :=
  match hay with
  | [] => needle.isEmpty
  | _ :: tl => List.isPrefixOf needle hay || containsSub needle tl

/-- Modelled from the spec: the Predicate Builder `filterColumn` (its module
`src/lib/filter-column.ts` is not under the sources).  Per §4.1: empty value →
no expression; selectable column → OR of equalities over the comma-separated
candidates; free-text column → substring match. -/
def filterColumn (get : Task → String) (value : String) (isSelectable : Bool) :
    Option (Task → Bool) :=
  if value = "" then none
  else if isSelectable then
    some (fun t => (jsSplit ',' value).any (fun v => get t = v))
  else
    some (fun t => containsSub value.toList (get t).toList)

/-! ## Sort resolution -/

inductive Dir where
  | asc
  | desc
deriving DecidableEq, Repr

/-- `queries.ts` lines 35–38: `input.sort?.split(".").filter(Boolean) ??
["createdAt", "desc"]` — the default applies only when `sort` is absent; a
present string is split on "." and empty parts are dropped. -/
def sortParts (sort : Option String) : List String :=
  match sort with
  | none => ["createdAt", "desc"]
  | some s => (jsSplit '.' s).filter (fun p => p ≠ "")

/-- `order === "asc" ? asc : desc`: any direction other than `"asc"`
(including an absent one) is descending. -/
def dirOf (o : Option String) : Dir :=
  if o = some "asc" then .asc else .desc

/-- `queries.ts` lines 84–90: the ORDER BY argument.  The dynamic property
access `tasks[column]` is performed through `taskColumn?` only behind the
`column && column in tasks` guard; the result is `none` exactly when an
order-by expression would be undefined.  The built value is a key list so
that multi-key orders are expressible. -/
def buildOrderBy (sort : Option String) : Option (List (TaskField × Dir)) :=
  let parts := sortParts sort
  let column := parts.get? 0
  let order := parts.get? 1
  match column with
  | some c =>
    if (taskColumn? c).isSome then
      (taskColumn? c).map (fun f => [(f, dirOf order)])
    else
      some [(TaskField.id, Dir.desc)]
  | none => some [(TaskField.id, Dir.desc)]

/-- The order the claim's words describe for the fallback: creation time
descending with identifier descending as tie-break. -/
def specDefaultOrder : List (TaskField × Dir) :=
  [(TaskField.createdAt, Dir.desc), (TaskField.id, Dir.desc)]

/-- Row comparison on one column (`a` before-or-equal `b`, ascending). -/
def fieldLe (f : TaskField) (a b : Task) : Bool :=
  match f with
  | .id => a.id ≤ b.id
  | .title => decide (a.title ≤ b.title)
  | .status => a.status.toCtorIdx ≤ b.status.toCtorIdx
  | .priority => a.priority.toCtorIdx ≤ b.priority.toCtorIdx
  | .createdAt => a.createdAt ≤ b.createdAt

/-- Row comparison under a key list (lexicographic; a key in descending
direction flips its column comparison). -/
def keysLe (ks : List (TaskField × Dir)) (a b : Task) : Bool :=
  match ks with
  | [] => true
  | (f, d) :: tl =>
    let le := match d with
      | .asc => fieldLe f a b
      | .desc => fieldLe f b a
    let ge := match d with
      | .asc => fieldLe f b a
      | .desc => fieldLe f a b
    if le && ge then keysLe tl a b else le

/-- ORDER BY: sort the fetched rows under the resolved key list. -/
def applyOrder (ks : List (TaskField × Dir)) (l : List Task) : List Task :=
  l.insertionSort (fun a b => keysLe ks a b = true)

/-! ## The `getTasks` pipeline -/

/-- The validated request (`GetTasksSchema`): page and per_page are positive
integers, the rest optional.  Date bounds arrive as parsed timestamps. -/
structure GetTasksInput where
  page : Nat
  per_page : Nat
  sort : Option String
  title : Option String
  status : Option String
  priority : Option String
  operator : Option String
  fromDate : Option Int
  toDate : Option Int

/-- `queries.ts` line 31: `offset = (input.page - 1) * input.per_page`. -/
def offsetOf (input : GetTasksInput) : Nat :=
  (input.page - 1) * input.per_page

/-- `queries.ts` lines 44–70: the five optional filter expressions (title
substring, status, priority, createdAt lower and upper bound).  A falsy
(absent or empty) raw value contributes no expression. -/
def expressions (input : GetTasksInput) : List (Option (Task → Bool)) :=
  [ match input.title with
    | some v => if v ≠ "" then filterColumn (fun t => t.title) v false else none
    | none => none,
    match input.status with
    | some v => if v ≠ "" then filterColumn (fun t => statusStr t.status) v true else none
    | none => none,
    match input.priority with
    | some v => if v ≠ "" then filterColumn (fun t => priorityStr t.priority) v true else none
    | none => none,
    input.fromDate.map (fun d => fun t => decide (d ≤ t.createdAt)),
    input.toDate.map (fun d => fun t => decide (t.createdAt ≤ d)) ]

/-- The composed where-clause of a request. -/
def whereOf (input : GetTasksInput) : Option (Task → Bool) :=
  combineWhere input.operator (expressions input)

/-- The rows of a storage state matching the request's where-clause. -/
def matching (input : GetTasksInput) (s : List Task) : List Task :=
  s.filter (evalWhere (whereOf input))

/-- `.limit(per_page).offset(offset)`: skip `offset` ordered rows, take the
next `per_page`. -/
def pageSlice (input : GetTasksInput) (l : List Task) : List Task :=
  (l.drop (offsetOf input)).take input.per_page

/-- The storage engine as seen by `getTasks`: a snapshot of the table plus a
failure flag for each of the two round-trips inside the transaction. -/
structure DB where
  state : List Task
  dataFails : Bool
  countFails : Bool

/-- The row query (`queries.ts` lines 78–90): where, order by, limit/offset.
`db.transaction` hands the query the transaction's snapshot. -/
def fetchData (input : GetTasksInput) (db : DB) : Except Unit (List Task) :=
  if db.dataFails then .error () else
    .ok (pageSlice input
      (applyOrder ((buildOrderBy input.sort).getD []) (matching input db.state)))

/-- The count query (`queries.ts` lines 92–99): `select count() where …`,
then `res[0]?.count ?? 0`. -/
def fetchTotal (input : GetTasksInput) (db : DB) : Except Unit Nat :=
  if db.countFails then .error () else
    .ok ([(matching input db.state).length].head?.getD 0)

/-- `queries.ts` lines 77–105: both queries run inside one `db.transaction`,
so both are evaluated against the same snapshot `db.state`; an error in
either aborts the transaction. -/
def runTransaction (input : GetTasksInput) (db : DB) :
    Except Unit (List Task × Nat) :=
  match fetchData input db with
  | .error e => .error e
  | .ok data =>
    match fetchTotal input db with
    | .error e => .error e
    | .ok total => .ok (data, total)

/-- `Math.ceil(total / per_page)` on naturals (per_page ≥ 1 in every
validated request). -/
def jsCeilDiv (total per : Nat) : Nat :=
  (total + per - 1) / per

/-- The shape returned to callers: rows plus derived page count. -/
structure GetTasksResult where
  data : List Task
  pageCount : Nat
deriving DecidableEq, Repr

/-- `getTasks` (`queries.ts` lines 26–112): run the transaction, derive
`pageCount`; any storage error is caught and degrades to `{data: [],
pageCount: 0}`. -/
def getTasks (input : GetTasksInput) (db : DB) : GetTasksResult :=
  match runTransaction input db with
  | .ok (data, total) => ⟨data, jsCeilDiv total input.per_page⟩
  | .error _ => ⟨[], 0⟩

/-! ## Aggregate counters -/

/-- The storage engine as seen by an aggregate operation. -/
structure AggDB where
  state : List Task
  fails : Bool

/-- `GROUP BY key … HAVING count() > 0`: one `(value, count)` row per distinct
key value among the rows, keeping only positive counts. -/
def groupCounts {α : Type} [DecidableEq α] (key : Task → α) (rows : List Task) :
    List (α × Nat) :=
  (((rows.map key).dedup).map
    (fun v => (v, (rows.filter (fun t => decide (key t = v))).length))).filter
    (fun g => decide (0 < g.2))

/-- Look a dimension value up in a grouped-count result. -/
def lookupCount {α : Type} [DecidableEq α] (v : α) (m : List (α × Nat)) :
    Option Nat :=
  (m.find? (fun g => decide (g.1 = v))).map (fun g => g.2)

/-- `getTaskCountByStatus` (`queries.ts` lines 114–137), inner query: rows
with the given status, grouped by status with `HAVING count > 0`, distinct
counts, then `res[0]?.count ?? 0`; a storage error degrades to 0. -/
def getTaskCountByStatus (v : Status) (db : AggDB) : Nat :=
  if db.fails then 0 else
    (((groupCounts (fun t => t.status)
        (db.state.filter (fun t => decide (t.status = v)))).map
      (fun g => g.2)).dedup.head?).getD 0

/-- `getTaskCountByPriority` (`queries.ts` lines 139–162). -/
def getTaskCountByPriority (p : Priority) (db : AggDB) : Nat :=
  if db.fails then 0 else
    (((groupCounts (fun t => t.priority)
        (db.state.filter (fun t => decide (t.priority = p)))).map
      (fun g => g.2)).dedup.head?).getD 0

/-- `getTaskStatusCounts` (`queries.ts` lines 164–195): grouped counts by
status folded into a map; a storage error degrades to the empty mapping. -/
def getTaskStatusCounts (db : AggDB) : List (Status × Nat) :=
  if db.fails then [] else groupCounts (fun t => t.status) db.state

/-- `getTaskPriorityCounts` (`queries.ts` lines 197–228). -/
def getTaskPriorityCounts (db : AggDB) : List (Priority × Nat) :=
  if db.fails then [] else groupCounts (fun t => t.priority) db.state

/-! ## Cache wrapping of the aggregates -/

/-- The arguments each aggregate passes to the framework cache: key parts,
revalidate TTL in seconds, and tags. -/
structure CacheSpec where
  keyParts : List String
  revalidate : Nat
  tags : List String
deriving DecidableEq, Repr

/-- Cache arguments of `getTaskCountByStatus` (`queries.ts` lines 131–135). -/
def countByStatusCache (v : Status) : CacheSpec :=
  ⟨["task-status-" ++ statusStr v], 900,
    ["task-count", "task-status-" ++ statusStr v]⟩

/-- Cache arguments of `getTaskCountByPriority` (lines 156–160). -/
def countByPriorityCache (p : Priority) : CacheSpec :=
  ⟨["task-priority-" ++ priorityStr p], 900,
    ["task-count", "task-priority-" ++ priorityStr p]⟩

/-- Cache arguments of `getTaskStatusCounts` (lines 189–193). -/
def statusCountsCache : CacheSpec :=
  ⟨["task-status-counts"], 900, ["task-count", "task-status-counts"]⟩

/-- Cache arguments of `getTaskPriorityCounts` (lines 222–226). -/
def priorityCountsCache : CacheSpec :=
  ⟨["task-priority-counts"], 900, ["task-count", "task-priority-counts"]⟩

/-! ## Concrete instances used by witnesses and counterexamples -/

def sampleTask : Task := ⟨1, "alpha", .done, .low, 5⟩

/-- A request with no filters, first page of ten. -/
def plainInput : GetTasksInput := ⟨1, 10, none, none, none, none, none, none, none⟩

/-- The same request asking for the second page. -/
def page2Input : GetTasksInput := ⟨2, 10, none, none, none, none, none, none, none⟩

def sampleDB : DB := ⟨[sampleTask], false, false⟩

def failingDB : DB := ⟨[sampleTask], true, false⟩

def emptyDB : DB := ⟨[], false, false⟩

def sampleAggDB : AggDB := ⟨[sampleTask], false⟩

def failingAggDB : AggDB := ⟨[sampleTask], true⟩

/-! ## Helper lemmas -/

theorem jsCeilDiv_eq_ceilDiv (t p : Nat) : jsCeilDiv t p = t ⌈/⌉ p := rfl

theorem jsCeilDiv_eq_zero_iff (t p : Nat) (hp : 1 ≤ p) :
    jsCeilDiv t p = 0 ↔ t = 0 := by
  unfold jsCeilDiv
  rw [Nat.div_eq_zero_iff (by omega : 0 < p)]
  omega

theorem jsCeilDiv_pos (t p : Nat) (hp : 1 ≤ p) (ht : 0 < t) :
    0 < jsCeilDiv t p := by
  unfold jsCeilDiv
  have h := (Nat.one_le_div_iff (by omega : 0 < p)).mpr (by omega : p ≤ t + p - 1)
  omega

theorem applyOrder_length (ks : List (TaskField × Dir)) (l : List Task) :
    (applyOrder ks l).length = l.length :=
  List.length_insertionSort _ _

theorem groupCounts_key_mem {α : Type} [DecidableEq α] (key : Task → α)
    (rows : List Task) (g : α × Nat) (hg : g ∈ groupCounts key rows) :
    g.1 ∈ rows.map key := by
  unfold groupCounts at hg
  have h1 := (List.mem_filter.mp hg).1
  rcases List.mem_map.mp h1 with ⟨v, hv, he⟩
  have : g.1 = v := by rw [← he]
  rw [this]
  exact List.mem_dedup.mp hv

/-! ## The claims -/

/-- C1: `getTasks` never propagates a storage error — if either round-trip of
the transaction fails, the caught error degrades the call to the empty
result `{data: [], pageCount: 0}`. -/
theorem getTasks_storage_error_degrades (input : GetTasksInput) (db : DB)
    (h : db.dataFails = true ∨ db.countFails = true) :
    getTasks input db = ⟨[], 0⟩ := by
  rcases h with h | h <;> cases hd : db.dataFails <;>
    simp_all [getTasks, runTransaction, fetchData, fetchTotal]

/-- C1 witness: a failing data query over a nonempty table. -/
theorem getTasks_storage_error_degrades_witness :
    (failingDB.dataFails = true ∨ failingDB.countFails = true)
    ∧ getTasks plainInput failingDB = ⟨[], 0⟩ :=
  ⟨Or.inl rfl, getTasks_storage_error_degrades plainInput failingDB (Or.inl rfl)⟩

/-- C2: on success with page ≥ 1 and perPage ≥ 1, the slice offset is
`(page − 1) · perPage` and the returned `pageCount` is the ceiling of the
matching-row total over perPage (so total 0 gives pageCount 0). -/
theorem getTasks_pagination_formulas (input : GetTasksInput) (db : DB)
    (h1 : db.dataFails = false) (h2 : db.countFails = false)
    (hpage : 1 ≤ input.page) (hper : 1 ≤ input.per_page) :
    offsetOf input = (input.page - 1) * input.per_page
    ∧ (getTasks input db).data
        = ((applyOrder ((buildOrderBy input.sort).getD [])
            (matching input db.state)).drop
            ((input.page - 1) * input.per_page)).take input.per_page
    ∧ (getTasks input db).pageCount
        = (matching input db.state).length ⌈/⌉ input.per_page
    ∧ ((matching input db.state).length = 0 → (getTasks input db).pageCount = 0) := by
  refine ⟨rfl, ?_, ?_, ?_⟩
  · simp [getTasks, runTransaction, fetchData, fetchTotal, h1, h2,
      pageSlice, offsetOf]
  · simp [getTasks, runTransaction, fetchData, fetchTotal, h1, h2,
      jsCeilDiv_eq_ceilDiv]
  · intro h0
    simp [getTasks, runTransaction, fetchData, fetchTotal, h1, h2, h0,
      (jsCeilDiv_eq_zero_iff 0 input.per_page hper).mpr rfl]

/-- C2 witness: second page of ten over a one-row table. -/
theorem getTasks_pagination_formulas_witness :
    (sampleDB.dataFails = false ∧ sampleDB.countFails = false
      ∧ 1 ≤ page2Input.page ∧ 1 ≤ page2Input.per_page)
    ∧ (offsetOf page2Input = (page2Input.page - 1) * page2Input.per_page
    ∧ (getTasks page2Input sampleDB).data
        = ((applyOrder ((buildOrderBy page2Input.sort).getD [])
            (matching page2Input sampleDB.state)).drop
            ((page2Input.page - 1) * page2Input.per_page)).take page2Input.per_page
    ∧ (getTasks page2Input sampleDB).pageCount
        = (matching page2Input sampleDB.state).length ⌈/⌉ page2Input.per_page
    ∧ ((matching page2Input sampleDB.state).length = 0 →
        (getTasks page2Input sampleDB).pageCount = 0)) :=
  ⟨⟨rfl, rfl, by decide, by decide⟩,
    getTasks_pagination_formulas page2Input sampleDB rfl rfl (by decide) (by decide)⟩

/-- C3 counterexample: the unrecognized combinator string `"xor"` is not
treated as `"and"` — over the present predicates `true` and `false` it
produces the OR (the row passes), while the AND would reject it. -/
theorem combineWhere_unrecognized_is_not_and :
    evalWhere (combineWhere (some "xor")
      [some (fun _ => true), some (fun _ => false)]) sampleTask = true
    ∧ evalWhere (andOf [some (fun _ => true), some (fun _ => false)]) sampleTask
      = false :=
  ⟨rfl, rfl⟩

/-- C3 (amended): with at least one present predicate, the combinator `"and"`
— and the falsy values, absent and empty string — produce the AND of the
present predicates, while `"or"` and every other non-empty string (any
unrecognized one included) produce their OR. -/
theorem combineWhere_semantics (op : Option String)
    (es : List (Option (Task → Bool))) (t : Task)
    (h : es.filterMap id ≠ []) :
    evalWhere (combineWhere op es) t =
      if op = none ∨ op = some "" ∨ op = some "and"
      then (es.filterMap id).all (fun p => p t)
      else (es.filterMap id).any (fun p => p t) := by
  have hne : (es.filterMap id).isEmpty = false := by
    cases hh : es.filterMap id
    · exact absurd hh h
    · rfl
  by_cases hop : op = none ∨ op = some "" ∨ op = some "and" <;>
    simp [combineWhere, andOf, orOf, evalWhere, hne, hop]

/-- C3 witness for the amended claim: the `"or"` combinator over one present
predicate. -/
theorem combineWhere_semantics_witness :
    ([some (fun t : Task => decide (t.id = 1)), none].filterMap id ≠ [])
    ∧ evalWhere (combineWhere (some "or")
        [some (fun t : Task => decide (t.id = 1)), none]) sampleTask =
      if (some "or") = none ∨ (some "or") = some "" ∨ (some "or") = some "and"
      then ([some (fun t : Task => decide (t.id = 1)), none].filterMap id).all
        (fun p => p sampleTask)
      else ([some (fun t : Task => decide (t.id = 1)), none].filterMap id).any
        (fun p => p sampleTask) :=
  ⟨by simp, combineWhere_semantics (some "or")
    [some (fun t : Task => decide (t.id = 1)), none] sampleTask (by simp)⟩

/-- C4 counterexample: the fallback order is a single key, not the claimed
two-key (createdAt desc, id desc) order — an unrecognized sort column gives
identifier descending alone, an absent sort gives creation time descending
alone. -/
theorem buildOrderBy_fallback_is_single_key :
    buildOrderBy (some "foo.asc") = some [(TaskField.id, Dir.desc)]
    ∧ buildOrderBy none = some [(TaskField.createdAt, Dir.desc)]
    ∧ buildOrderBy (some "foo.asc") ≠ some specDefaultOrder
    ∧ buildOrderBy none ≠ some specDefaultOrder :=
  ⟨by decide, by decide, by decide, by decide⟩

/-- C4 (amended): an absent sort string falls back to creation time
descending (a single key, no tie-break), and a present sort string whose
column part is not a recognized Task field — or has no column part at all —
falls back to identifier descending (a single key). -/
theorem buildOrderBy_fallback (s : String)
    (h : ∀ c, (sortParts (some s)).get? 0 = some c → taskColumn? c = none) :
    buildOrderBy none = some [(TaskField.createdAt, Dir.desc)]
    ∧ buildOrderBy (some s) = some [(TaskField.id, Dir.desc)] := by
  refine ⟨by decide, ?_⟩
  simp only [buildOrderBy]
  cases hc : (sortParts (some s)).get? 0 with
  | none => rfl
  | some c => simp [h c hc]

/-- C4 witness for the amended claim: the unrecognized column `"foo"`. -/
theorem buildOrderBy_fallback_witness :
    (∀ c, (sortParts (some "foo.asc")).get? 0 = some c → taskColumn? c = none)
    ∧ buildOrderBy none = some [(TaskField.createdAt, Dir.desc)]
    ∧ buildOrderBy (some "foo.asc") = some [(TaskField.id, Dir.desc)] := by
  have h : ∀ c, (sortParts (some "foo.asc")).get? 0 = some c →
      taskColumn? c = none := by
    intro c hc
    have h2 : (sortParts (some "foo.asc")).get? 0 = some "foo" := by decide
    have : c = "foo" := (Option.some.inj (h2.symm.trans hc)).symm
    rw [this]
    decide
  exact ⟨h, (buildOrderBy_fallback "foo.asc" h).1, (buildOrderBy_fallback "foo.asc" h).2⟩

/-- C5: each of the four aggregate operations degrades a storage error to its
empty value: 0 for the scalar counts, the empty mapping for the grouped
counts. -/
theorem aggregates_error_degrade (db : AggDB) (v : Status) (p : Priority)
    (h : db.fails = true) :
    getTaskCountByStatus v db = 0 ∧ getTaskCountByPriority p db = 0
    ∧ getTaskStatusCounts db = [] ∧ getTaskPriorityCounts db = [] := by
  simp [getTaskCountByStatus, getTaskCountByPriority, getTaskStatusCounts,
    getTaskPriorityCounts, h]

/-- C5 witness: a failing storage engine behind every aggregate. -/
theorem aggregates_error_degrade_witness :
    failingAggDB.fails = true
    ∧ (getTaskCountByStatus .done failingAggDB = 0
    ∧ getTaskCountByPriority .low failingAggDB = 0
    ∧ getTaskStatusCounts failingAggDB = []
    ∧ getTaskPriorityCounts failingAggDB = []) :=
  ⟨rfl, aggregates_error_degrade failingAggDB .done .low rfl⟩

/-- C6: a dimension value with zero matching rows is absent from the grouped
count maps — its key is never present, not even with count 0 — and the scalar
count operations return 0 for it. -/
theorem zero_count_dimension_absent (db : AggDB) (v : Status) (p : Priority)
    (hf : db.fails = false)
    (hs : ∀ t ∈ db.state, t.status ≠ v)
    (hp : ∀ t ∈ db.state, t.priority ≠ p) :
    lookupCount v (getTaskStatusCounts db) = none
    ∧ lookupCount p (getTaskPriorityCounts db) = none
    ∧ getTaskCountByStatus v db = 0
    ∧ getTaskCountByPriority p db = 0 := by
  have hsf : db.state.filter (fun t => decide (t.status = v)) = [] := by
    rw [List.filter_eq_nil_iff]
    intro t ht
    simpa using hs t ht
  have hpf : db.state.filter (fun t => decide (t.priority = p)) = [] := by
    rw [List.filter_eq_nil_iff]
    intro t ht
    simpa using hp t ht
  refine ⟨?_, ?_, ?_, ?_⟩
  · rw [getTaskStatusCounts, if_neg (by simp [hf]), lookupCount,
      List.find?_eq_none.mpr ?_]
    · rfl
    · intro g hg
      rcases List.mem_map.mp (groupCounts_key_mem _ _ g hg) with ⟨t, ht, he⟩
      simp [← he, hs t ht]
  · rw [getTaskPriorityCounts, if_neg (by simp [hf]), lookupCount,
      List.find?_eq_none.mpr ?_]
    · rfl
    · intro g hg
      rcases List.mem_map.mp (groupCounts_key_mem _ _ g hg) with ⟨t, ht, he⟩
      simp [← he, hp t ht]
  · rw [getTaskCountByStatus, if_neg (by simp [hf]), hsf]
    rfl
  · rw [getTaskCountByPriority, if_neg (by simp [hf]), hpf]
    rfl

/-- C6 witness: statuses and priorities unrepresented in a one-row table. -/
theorem zero_count_dimension_absent_witness :
    (sampleAggDB.fails = false
      ∧ (∀ t ∈ sampleAggDB.state, t.status ≠ Status.todo)
      ∧ (∀ t ∈ sampleAggDB.state, t.priority ≠ Priority.high))
    ∧ (lookupCount Status.todo (getTaskStatusCounts sampleAggDB) = none
    ∧ lookupCount Priority.high (getTaskPriorityCounts sampleAggDB) = none
    ∧ getTaskCountByStatus Status.todo sampleAggDB = 0
    ∧ getTaskCountByPriority Priority.high sampleAggDB = 0) :=
  ⟨⟨rfl, by decide, by decide⟩,
    zero_count_dimension_absent sampleAggDB Status.todo Priority.high rfl
      (by decide) (by decide)⟩

/-- C7 counterexample: the cache entry of `getTaskCountByStatus` for `done`
is tagged `["task-count", "task-status-done"]` — it carries neither the
claimed shared tag `"aggregate-invalidation"` nor a `"status:done"` tag. -/
theorem cache_tags_not_as_claimed :
    (countByStatusCache .done).tags = ["task-count", "task-status-done"]
    ∧ "aggregate-invalidation" ∉ (countByStatusCache .done).tags
    ∧ "status:done" ∉ (countByStatusCache .done).tags :=
  ⟨rfl, by decide, by decide⟩

/-- C7 (amended): every cache entry created by the four aggregate operations
has a 900-second TTL and a tag set containing the shared tag `"task-count"`
plus an entry-specific tag — `"task-status-<value>"` or
`"task-priority-<value>"` for the scalar counts and `"task-status-counts"` or
`"task-priority-counts"` for the grouped counts — so an external writer can
invalidate either all aggregates or one specific aggregate. -/
theorem cache_entries_ttl_and_tags (v : Status) (p : Priority) :
    (countByStatusCache v).revalidate = 900
    ∧ "task-count" ∈ (countByStatusCache v).tags
    ∧ ("task-status-" ++ statusStr v) ∈ (countByStatusCache v).tags
    ∧ (countByPriorityCache p).revalidate = 900
    ∧ "task-count" ∈ (countByPriorityCache p).tags
    ∧ ("task-priority-" ++ priorityStr p) ∈ (countByPriorityCache p).tags
    ∧ statusCountsCache.revalidate = 900
    ∧ "task-count" ∈ statusCountsCache.tags
    ∧ "task-status-counts" ∈ statusCountsCache.tags
    ∧ priorityCountsCache.revalidate = 900
    ∧ "task-count" ∈ priorityCountsCache.tags
    ∧ "task-priority-counts" ∈ priorityCountsCache.tags := by
  cases v <;> cases p <;> decide

/-- C8: the row fetch and the count fetch of `getTasks` run inside one
transaction, so both are evaluated against the single snapshot the
transaction holds: the returned total is the matching-row count of the very
state the rows were sliced from, the rows never outnumber that total, and a
zero pageCount forces empty rows — rows and pageCount cannot disagree. -/
theorem transaction_snapshot_consistent (input : GetTasksInput) (db : DB)
    (h1 : db.dataFails = false) (h2 : db.countFails = false)
    (hper : 1 ≤ input.per_page) :
    runTransaction input db =
      .ok (pageSlice input (applyOrder ((buildOrderBy input.sort).getD [])
            (matching input db.state)),
          (matching input db.state).length)
    ∧ (getTasks input db).data.length ≤ (matching input db.state).length
    ∧ ((getTasks input db).pageCount = 0 → (getTasks input db).data = []) := by
  have hrun : runTransaction input db =
      .ok (pageSlice input (applyOrder ((buildOrderBy input.sort).getD [])
            (matching input db.state)),
          (matching input db.state).length) := by
    simp [runTransaction, fetchData, fetchTotal, h1, h2]
  have hdata : (getTasks input db).data
      = pageSlice input (applyOrder ((buildOrderBy input.sort).getD [])
          (matching input db.state)) := by
    simp [getTasks, hrun]
  have hcount : (getTasks input db).pageCount
      = jsCeilDiv (matching input db.state).length input.per_page := by
    simp [getTasks, hrun]
  refine ⟨hrun, ?_, ?_⟩
  · rw [hdata]
    calc (pageSlice input (applyOrder ((buildOrderBy input.sort).getD [])
            (matching input db.state))).length
        ≤ ((applyOrder ((buildOrderBy input.sort).getD [])
            (matching input db.state)).drop (offsetOf input)).length := by
          unfold pageSlice
          rw [List.length_take]
          exact min_le_right _ _
      _ ≤ (applyOrder ((buildOrderBy input.sort).getD [])
            (matching input db.state)).length := by
          rw [List.length_drop]
          exact Nat.sub_le _ _
      _ = (matching input db.state).length := applyOrder_length _ _
  · intro h0
    rw [hcount] at h0
    have hm : (matching input db.state).length = 0 :=
      (jsCeilDiv_eq_zero_iff _ _ hper).mp h0
    have hnil : matching input db.state = [] := List.eq_nil_of_length_eq_zero hm
    rw [hdata, hnil]
    simp [pageSlice, applyOrder, List.insertionSort]

/-- C8 witness: the one-row table, first page. -/
theorem transaction_snapshot_consistent_witness :
    (sampleDB.dataFails = false ∧ sampleDB.countFails = false
      ∧ 1 ≤ plainInput.per_page)
    ∧ (runTransaction plainInput sampleDB =
      .ok (pageSlice plainInput (applyOrder ((buildOrderBy plainInput.sort).getD [])
            (matching plainInput sampleDB.state)),
          (matching plainInput sampleDB.state).length)
    ∧ (getTasks plainInput sampleDB).data.length
        ≤ (matching plainInput sampleDB.state).length
    ∧ ((getTasks plainInput sampleDB).pageCount = 0 →
        (getTasks plainInput sampleDB).data = [])) :=
  ⟨⟨rfl, rfl, by decide⟩,
    transaction_snapshot_consistent plainInput sampleDB rfl rfl (by decide)⟩

/-- C9 counterexample: a successful call — both storage round-trips succeed —
over an empty table already returns the pair (empty rows, pageCount 0); that
pair is not exclusive to storage failures. -/
theorem empty_result_without_failure :
    emptyDB.dataFails = false ∧ emptyDB.countFails = false
    ∧ getTasks plainInput emptyDB = ⟨[], 0⟩ :=
  ⟨rfl, rfl, by decide⟩

/-- C9 (amended): on success with perPage ≥ 1, a page past the last one
(offset ≥ total while total > 0) returns empty rows with pageCount still
`ceil(total/perPage) ≥ 1`; the pair (empty rows, pageCount 0) arises on a
storage failure but also on success whenever total = 0. -/
theorem getTasks_past_last_page (input : GetTasksInput) (db : DB)
    (h1 : db.dataFails = false) (h2 : db.countFails = false)
    (hper : 1 ≤ input.per_page)
    (hoff : (matching input db.state).length ≤ offsetOf input)
    (hpos : 0 < (matching input db.state).length) :
    (getTasks input db).data = []
    ∧ (getTasks input db).pageCount
        = jsCeilDiv (matching input db.state).length input.per_page
    ∧ 0 < (getTasks input db).pageCount := by
  have hrun : runTransaction input db =
      .ok (pageSlice input (applyOrder ((buildOrderBy input.sort).getD [])
            (matching input db.state)),
          (matching input db.state).length) := by
    simp [runTransaction, fetchData, fetchTotal, h1, h2]
  have hcount : (getTasks input db).pageCount
      = jsCeilDiv (matching input db.state).length input.per_page := by
    simp [getTasks, hrun]
  refine ⟨?_, hcount, ?_⟩
  · have hdrop : (applyOrder ((buildOrderBy input.sort).getD [])
        (matching input db.state)).drop (offsetOf input) = [] := by
      apply List.drop_eq_nil_of_le
      rw [applyOrder_length]
      exact hoff
    simp [getTasks, hrun, pageSlice, hdrop]
  · rw [hcount]
    exact jsCeilDiv_pos _ _ hper hpos

/-- C9 witness for the amended claim: the second page of ten over a one-row
table (offset 10 ≥ total 1 > 0). -/
theorem getTasks_past_last_page_witness :
    (sampleDB.dataFails = false ∧ sampleDB.countFails = false
      ∧ 1 ≤ page2Input.per_page
      ∧ (matching page2Input sampleDB.state).length ≤ offsetOf page2Input
      ∧ 0 < (matching page2Input sampleDB.state).length)
    ∧ ((getTasks page2Input sampleDB).data = []
    ∧ (getTasks page2Input sampleDB).pageCount
        = jsCeilDiv (matching page2Input sampleDB.state).length page2Input.per_page
    ∧ 0 < (getTasks page2Input sampleDB).pageCount) :=
  ⟨⟨rfl, rfl, by decide, by decide, by decide⟩,
    getTasks_past_last_page page2Input sampleDB rfl rfl (by decide) (by decide)
      (by decide)⟩

/-- C10: the ORDER BY expression is always well-defined: the dynamic column
lookup runs only behind the membership check, a failed check taking the
static default column instead, so for every sort string the built expression
is present (never the undefined value a raw lookup of an absent column would
produce). -/
theorem buildOrderBy_always_defined (sort : Option String) :
    (buildOrderBy sort).isSome = true := by
  simp only [buildOrderBy]
  cases hc : (sortParts sort).get? 0 with
  | none => rfl
  | some c =>
    cases hs : taskColumn? c with
    | none => simp [hs]
    | some f => simp [hs]

end ShadcnTable
